import Mathlib

/-!
# Verification of the ARM_SARSAT_SGB T.018 beacon signal core

Shallow embedding of the COSPAS-SARSAT T.018 second-generation beacon
transmitter core (frame builder, BCH(250,202) codec, PRN generator and
OQPSK modulator) from the C sources, together with proofs of the
behavioural properties claimed by the design specification.

Conventions of the embedding:
* C machine integers are modelled by `ℕ` with explicit masking
  (`&&& (2^w - 1)`, `% 2^w`) exactly where the C source truncates.
* C `double`/`float` arithmetic on latitude/longitude/altitude is modelled
  by exact `ℚ` arithmetic; at every concrete input appearing in a theorem
  below the C floating-point computation is exact, so the rational model
  agrees with the compiled code there.
* C bit arrays (`uint8_t[n]`) are modelled by `List ℕ`; array reads
  `a[i]` become `l.getD i 0` and sequential writes become list
  concatenation or `List.set`, as appropriate.
-/

set_option maxRecDepth 20000

namespace T018

/-- Embedding of `write_bits` (`t018_protocol.c`): write `num_bits` bits of
`value` MSB-first.  The C routine stores `(value >> i) & 1` for
`i = num_bits-1 .. 0` at consecutive array positions; here the resulting
segment is returned as a list. -/
def write_bits (num_bits value : ℕ) : List ℕ :=
  (List.range num_bits).map (fun i => (value >>> (num_bits - 1 - i)) &&& 1)

/-- `BCH_GENERATOR_POLY` from `t018_protocol.h`: the 49-bit generator
polynomial of the BCH(250,202) code. -/
def BCH_GENERATOR_POLY : ℕ := 0x1C7EB85DF3C97

/-- Embedding of `compute_bch_250_202` (`t018_protocol.c`): build the
255-entry message `5 zeros ++ data ++ 48 zeros` and run the shift-XOR
long division, finally masking the remainder to 48 bits. -/
def compute_bch_250_202 (data_202bits : List ℕ) : ℕ :=
  let message := List.replicate 5 0 ++ data_202bits ++ List.replicate 48 0
  let rem := message.foldl
    (fun remainder b =>
      let r := (remainder <<< 1) ||| b
      if r &&& (1 <<< 48) ≠ 0 then r ^^^ BCH_GENERATOR_POLY else r) 0
  rem &&& 0xFFFFFFFFFFFF

/-- Embedding of `t018_verify_bch` (`t018_protocol.c`): extract the 202
information bits at frame positions 2..203, repack the 48 parity bits at
positions 204..251 MSB-first into a number, recompute the BCH remainder
and compare.  Returns `1` for valid, `0` for invalid, as the C does. -/
def t018_verify_bch (frame_bits : List ℕ) : ℕ :=
  let info_bits := (frame_bits.drop 2).take 202
  let received_bch := (List.range 48).foldl
    (fun acc i => if frame_bits.getD (204 + i) 0 ≠ 0 then acc ||| (1 <<< (47 - i)) else acc) 0
  if received_bch = compute_bch_250_202 info_bits then 1 else 0

end T018

namespace PRN

/-- `PRN_INIT_NORMAL_I` from `prn_generator.h`. -/
def PRN_INIT_NORMAL_I : ℕ := 0x000001
/-- `PRN_INIT_NORMAL_Q` from `prn_generator.h`. -/
def PRN_INIT_NORMAL_Q : ℕ := 0x1AC1FC
/-- `PRN_INIT_TEST_I` from `prn_generator.h`. -/
def PRN_INIT_TEST_I : ℕ := 0x52C9F0
/-- `PRN_INIT_TEST_Q` from `prn_generator.h`. -/
def PRN_INIT_TEST_Q : ℕ := 0x3CE928

/-- One update of the 23-stage LFSR of `prn_generate_i` / `prn_generate_q`
(`prn_generator.c`): feedback `X0 ⊕ X18`, shift right, feedback into bit
22, mask to 23 bits. -/
def prn_step (lfsr : ℕ) : ℕ :=
  ((lfsr >>> 1) ||| (((lfsr ^^^ (lfsr >>> 18)) &&& 1) <<< 22)) &&& 0x7FFFFF

/-- Iterate `prn_step` a given number of times. -/
def prn_iter : ℕ → ℕ → ℕ
  | 0, lfsr => lfsr
  | n + 1, lfsr => prn_iter n (prn_step lfsr)

/-- The chip stream of `prn_generate_i` / `prn_generate_q`
(`prn_generator.c`): each step emits `-1` if bit 0 of the state is set
and `+1` otherwise, then advances the LFSR. -/
def prn_chips : ℕ → ℕ → List ℤ
  | 0, _ => []
  | n + 1, lfsr => (if lfsr &&& 1 ≠ 0 then (-1 : ℤ) else 1) :: prn_chips n (prn_step lfsr)

/-- Pack a ±1 chip list MSB-first into a number, bit `1` standing for chip
`-1` and bit `0` for chip `+1` (the packing of `chips_to_hex` in
`tools/verify_prn.c` and of T.018 Table 2.2). -/
def pack_chips (chips : List ℤ) : ℕ :=
  chips.foldl (fun acc c => (acc <<< 1) ||| (if c = -1 then 1 else 0)) 0

/-- The reference chip table of `prn_verify_table_2_2`
(`prn_generator.c`), i.e. T.018 Table 2.2 Normal-I first 64 chips
`8000 0108 4212 84A1` as ±1 signal levels. -/
def table_2_2_reference : List ℤ :=
  [-1,  1,  1,  1,  1,  1,  1,  1,   1,  1,  1,  1,  1,  1,  1,  1,
    1,  1,  1,  1,  1,  1,  1, -1,   1,  1,  1,  1, -1,  1,  1,  1,
    1, -1,  1,  1,  1,  1, -1,  1,   1,  1,  1, -1,  1,  1, -1,  1,
   -1,  1,  1,  1,  1, -1,  1,  1,  -1,  1, -1,  1,  1,  1,  1, -1]

/-- Embedding of `prn_verify_table_2_2` (`prn_generator.c`): generate the
first 64 chips from `PRN_INIT_NORMAL_I` and compare them against the
reference table; return `1` on success, `0` on mismatch. -/
def prn_verify_table_2_2 : ℕ :=
  if prn_chips 64 PRN_INIT_NORMAL_I = table_2_2_reference then 1 else 0

end PRN

namespace T018

/-- `beacon_type_t` from `t018_protocol.h`. -/
inductive beacon_type
  | EPIRB
  | PLB
  | ELT
  | ELT_DT
deriving DecidableEq

/-- The numeric value of a `beacon_type_t` enumerator (EPIRB = 0, PLB = 1,
ELT = 2, ELT_DT = 3). -/
def beacon_type.val : beacon_type → ℕ
  | .EPIRB => 0
  | .PLB => 1
  | .ELT => 2
  | .ELT_DT => 3

/-- `rotating_field_type_t` from `t018_protocol.h`. -/
inductive rotating_field_type
  | G008
  | ELTDT
  | RLS
  | CANCEL
deriving DecidableEq

/-- The numeric value of a `rotating_field_type_t` enumerator. -/
def rotating_field_type.val : rotating_field_type → ℕ
  | .G008 => 0
  | .ELTDT => 1
  | .RLS => 2
  | .CANCEL => 3

/-- `gps_data_t` from `t018_protocol.h`.  The C `double` coordinates are
modelled by exact rationals; `altitude` is a `uint16_t` and `valid` a
`uint8_t` truth value tested against zero. -/
structure gps_data where
  latitude : ℚ
  longitude : ℚ
  altitude : ℕ
  valid : ℕ

/-- `beacon_config_t` from `t018_protocol.h`. -/
structure beacon_config where
  type : beacon_type
  country_code : ℕ
  tac_number : ℕ
  serial_number : ℕ
  test_mode : ℕ
  position : gps_data

/-- The module-level mutable state read by `t018_build_frame`
(`t018_protocol.c`): the clocks `system_time`, `activation_time` and
`last_gps_update_time`, the ELT transmission counter, and the UTC wall
time fields obtained from `gmtime` in the ELT-DT rotating field.  All are
inputs of the impure C code and are passed explicitly here. -/
structure env where
  system_time : ℕ
  activation_time : ℕ
  last_gps_update_time : ℕ
  transmission_count : ℕ
  tm_mday : ℕ
  tm_hour : ℕ
  tm_min : ℕ

/-- Embedding of `get_elapsed_activation_hours` (`t018_protocol.c`).
A zero `activation_time` is replaced by `system_time`; the `uint32_t`
subtraction wraps modulo `2^32` (for in-range inputs), the quotient is
truncated to `uint8_t`, and the result saturates at 63. -/
def get_elapsed_activation_hours (e : env) : ℕ :=
  let activation := if e.activation_time = 0 then e.system_time else e.activation_time
  let elapsed_seconds := (e.system_time + 2 ^ 32 - activation) % 2 ^ 32
  let elapsed_hours := (elapsed_seconds / 3600) % 2 ^ 8
  if elapsed_hours > 63 then 63 else elapsed_hours

/-- Embedding of `get_time_since_last_location_minutes`
(`t018_protocol.c`): wrapping `uint32_t` subtraction, quotient truncated
to `uint16_t`, saturated at 2046. -/
def get_time_since_last_location_minutes (e : env) : ℕ :=
  let elapsed_seconds := (e.system_time + 2 ^ 32 - e.last_gps_update_time) % 2 ^ 32
  let elapsed_minutes := (elapsed_seconds / 60) % 2 ^ 16
  if elapsed_minutes > 2046 then 2046 else elapsed_minutes

/-- Embedding of `altitude_to_code` (`t018_protocol.c`).  The C `double`
arithmetic `(altitude + 400.0) / 16.0 + 0.0625 + 0.5` followed by the
truncating `int16_t` cast is modelled by exact rational arithmetic and
`Int.floor` (the operand is positive in that branch); the computation is
exact in `double` for every altitude that is an integer, in particular
for the `uint16_t` altitudes stored in `gps_data_t` and for the concrete
inputs used below. -/
def altitude_to_code (altitude : ℚ) : ℕ :=
  if altitude ≤ -400 then 0
  else if altitude > 15952 then 1022
  else (Int.toNat ⌊(altitude + 400) / 16 + 0.0625 + 0.5⌋) &&& 0x3FF

/-- Embedding of `encode_time_value` (`t018_protocol.c`). -/
def encode_time_value (day hour minute : ℕ) : ℕ :=
  ((day &&& 0x1F) <<< 11) ||| ((hour &&& 0x1F) <<< 6) ||| (minute &&& 0x3F)

/-- Embedding of `lfsr_8bit` (`t018_protocol.c`): the 8-bit LFSR used to
scramble the G.008 rotating field in test mode. -/
def lfsr_8bit (state : ℕ) : ℕ :=
  ((state >>> 1) |||
    ((((state >>> 0) ^^^ (state >>> 2) ^^^ (state >>> 3) ^^^ (state >>> 4)) &&& 1) <<< 7)) % 2 ^ 8

/-- The test-mode G.008 scramble loop of `set_rotating_field`
(`t018_protocol.c`): advance `lfsr_8bit` and emit `state & 1`, `n`
times. -/
def lfsr_run : ℕ → ℕ → List ℕ
  | 0, _ => []
  | n + 1, state =>
    let state' := lfsr_8bit state
    (state' &&& 1) :: lfsr_run n state'

/-- Embedding of `t018_encode_position` (`t018_protocol.c`): the 47-bit
latitude/longitude field of T.018 Appendix C.  The C `float` pipeline
(sign test, absolute value, truncating `uint8_t` degree cast, fractional
part, `×32768 + 0.5`, truncating `uint16_t` cast) is modelled by exact
rational arithmetic; for coordinates exactly representable in `float`
and in range, every C `float` operation involved is exact, so the model
coincides with the compiled code there. -/
def t018_encode_position (latitude longitude : ℚ) (valid : ℕ) : List ℕ :=
  let lat := if valid ≠ 0 then latitude else 0
  let lat_abs := if lat < 0 then -lat else lat
  let lat_degrees := Int.toNat ⌊lat_abs⌋
  let lat_decimal_encoded := Int.toNat ⌊(lat_abs - lat_degrees) * 32768 + 0.5⌋
  let lon := if valid ≠ 0 then longitude else 0
  let lon_abs := if lon < 0 then -lon else lon
  let lon_degrees := Int.toNat ⌊lon_abs⌋
  let lon_decimal_encoded := Int.toNat ⌊(lon_abs - lon_degrees) * 32768 + 0.5⌋
  [if lat < 0 then 1 else 0] ++ write_bits 7 lat_degrees ++ write_bits 15 lat_decimal_encoded ++
    ([if lon < 0 then 1 else 0] ++ write_bits 8 lon_degrees ++ write_bits 15 lon_decimal_encoded)

/-- Embedding of `set_rotating_field` (`t018_protocol.c`).  The C routine
writes the 4-bit kind at information-bit position 154 and the 44-bit
payload at positions 158..201; since `t018_build_frame` has filled
exactly positions 0..153 before the call, the rotating field is returned
here as the 48-bit suffix of the information block. -/
def set_rotating_field (cfg : beacon_config) (e : env) (rf_type : rotating_field_type) :
    List ℕ :=
  write_bits 4 rf_type.val ++
    (match rf_type with
     | .G008 =>
       write_bits 6 (get_elapsed_activation_hours e) ++
         write_bits 11 (get_time_since_last_location_minutes e) ++
         write_bits 10 (altitude_to_code (cfg.position.altitude : ℚ)) ++
         (if cfg.test_mode ≠ 0 then lfsr_run 17 (e.transmission_count &&& 0xFF)
          else write_bits 17 0)
     | .ELTDT =>
       write_bits 16 (encode_time_value e.tm_mday e.tm_hour e.tm_min) ++
         write_bits 10 (altitude_to_code (cfg.position.altitude : ℚ)) ++
         write_bits 18 0
     | .RLS => write_bits 8 0 ++ write_bits 36 0
     | .CANCEL => write_bits 2 0 ++ write_bits 42 0x3FFFFFFFFFF)

/-- The 202-bit information block assembled by `t018_build_frame`
(`t018_protocol.c`).  The C routine zeroes the array and then fills
positions 0..201 by consecutive `write_bits` calls (with the GPS block
copied in two `memcpy`s and the rotating field written by
`set_rotating_field`); the same segments are concatenated here in source
order. -/
def t018_info_bits (cfg : beacon_config) (e : env) : List ℕ :=
  let tac := if cfg.test_mode ≠ 0 then 9999 else cfg.tac_number % 2 ^ 16
  let serial := cfg.serial_number &&& 0x3FFF
  let country := cfg.country_code &&& 0x3FF
  let gps_encoded := t018_encode_position cfg.position.latitude cfg.position.longitude
    cfg.position.valid
  let vessel_id_type : ℕ :=
    match cfg.type with
    | .EPIRB => 1
    | .ELT => 2
    | .ELT_DT => 2
    | .PLB => 0
  let vessel_id : ℕ := if cfg.type = .EPIRB then 227006600 else 0
  let rf_type : rotating_field_type := if cfg.type = .ELT_DT then .ELTDT else .G008
  write_bits 16 tac ++ write_bits 14 serial ++ write_bits 10 country ++
    [0] ++ [1] ++ [if cfg.test_mode ≠ 0 then 1 else 0] ++
    gps_encoded.take 23 ++ (gps_encoded.drop 23).take 24 ++
    write_bits 3 vessel_id_type ++ write_bits 30 (vessel_id &&& 0x3FFFFFFF) ++
    write_bits 14 0 ++ write_bits 3 cfg.type.val ++ write_bits 14 0x3FFF ++
    set_rotating_field cfg e rf_type

/-- Embedding of `t018_build_frame` (`t018_protocol.c`): the 2-bit header,
the 202-bit information block, and the 48 BCH parity bits written
MSB-first at positions 204..251. -/
def t018_build_frame (cfg : beacon_config) (e : env) : List ℕ :=
  let info_bits := t018_info_bits cfg e
  let bch_parity := compute_bch_250_202 info_bits
  [if cfg.test_mode ≠ 0 then 1 else 0, 0] ++ info_bits ++
    (List.range 48).map (fun i => (bch_parity >>> (47 - i)) &&& 1)

end T018

/-- The odd/even channel split of `oqpsk_modulate_frame` (identical in
both versions of `oqpsk_modulator.c`): `i_bits[i] = tx_frame[2*i]`. -/
def oqpsk_i_bits (tx_frame : List ℕ) : List ℕ :=
  (List.range 150).map (fun i => tx_frame.getD (2 * i) 0)

/-- The odd/even channel split of `oqpsk_modulate_frame` (identical in
both versions of `oqpsk_modulator.c`): `q_bits[i] = tx_frame[2*i+1]`. -/
def oqpsk_q_bits (tx_frame : List ℕ) : List ℕ :=
  (List.range 150).map (fun i => tx_frame.getD (2 * i + 1) 0)

/-! ## The half-sine OQPSK modulator (`src/unnamed/part_003`, a revision of
`oqpsk_modulator.c` with an all-zero preamble, bit = 1 inverting the PRN,
half-sine pulse shaping and an integer number of samples per chip). -/

namespace OqpskHalfSine

/-- Embedding of `build_transmission_frame` (`part_003`): zero the 300-bit
array, write an all-zero 50-bit preamble, and copy the first 250 frame
bits behind it (the zero `memset` keeps any uncopied tail at 0). -/
def build_transmission_frame (frame_bits : List ℕ) : List ℕ :=
  (List.range 50).map (fun _ => 0) ++
    (frame_bits.take 250 ++ List.replicate (250 - (frame_bits.take 250).length) 0)

/-- The per-chip spreading of `oqpsk_modulate_frame` (`part_003`, lines
195..201): a nonzero data bit negates the PRN chip, a zero bit keeps
it. -/
def spread_chip (bit : ℕ) (chip : ℤ) : ℤ :=
  if bit ≠ 0 then -chip else chip

/-- The spreading pass of `oqpsk_modulate_frame` (`part_003`): the C
iterates `bit = 0..149`, `chip = 0..255` over `chip_idx = bit*256+chip`;
for each of the 38400 chip positions the governing data bit is
`chip_idx / 256`. -/
def spread (bits : List ℕ) (prn : List ℤ) : List ℤ :=
  (List.range 38400).map (fun chip_idx => spread_chip (bits.getD (chip_idx / 256) 0) (prn.getD chip_idx 0))

/-!
Embedding of the sample-generation part of `oqpsk_modulate_frame`
(`part_003`, lines 217..293) over a caller-supplied output buffer
(matching the C `iq_samples` pointer whose prior contents are
arbitrary).

Modelled from the spec: the macro `OQPSK_SAMPLES_PER_CHIP` used by this
revision of the modulator (an integer number of samples per chip, 16 in
the comments) comes from a revision of `oqpsk_modulator.h` that is not in
the repository snapshot — the header copies present define the legacy
fractional 65.104167 constant — so, per §4.6 of the specification, it is
taken here as an arbitrary integer parameter `sps`.  The `sinf` half-sine
pulse values, the `1/√2` normalization factor and the `exp(jπ/4)`
rotation coefficients are irrational `float` constants and are abstracted
as the parameters `pulse`, `normF`, `rotC`, `rotS`; the claims proved
below do not depend on their values.

The five loops of the C routine are split into the five pass functions
below, composed by `modulate_samples`. -/

/-- The zero-initialization loop: `for i < total: iq_samples[i] = 0`. -/
def init_pass (total : ℕ) (b : List (ℚ × ℚ)) : List (ℚ × ℚ) :=
  (List.range total).foldl (fun b i => b.set i ((0 : ℚ), (0 : ℚ))) b

/-- The I-channel pulse loop:
`iq_samples[ci*sps + s] += i_prn[ci] * pulse(s)`. -/
def i_pass (i_prn : List ℤ) (sps : ℕ) (pulse : ℕ → ℚ) (b : List (ℚ × ℚ)) :
    List (ℚ × ℚ) :=
  (List.range 38400).foldl (fun b ci =>
    (List.range sps).foldl (fun b s =>
      let idx := ci * sps + s
      let old := b.getD idx (0, 0)
      b.set idx (old.1 + (i_prn.getD ci 0 : ℚ) * pulse s, old.2)) b) b

/-- The Q-channel pulse loop, delayed by `sps / 2` samples and clipped to
the buffer: `idx = ci*sps - q_delay + s; if 0 ≤ idx < total:
iq_samples[idx] += I * q_prn[ci] * pulse(s)`. -/
def q_pass (q_prn : List ℤ) (sps total : ℕ) (pulse : ℕ → ℚ) (b : List (ℚ × ℚ)) :
    List (ℚ × ℚ) :=
  (List.range 38400).foldl (fun b (ci : ℕ) =>
    (List.range sps).foldl (fun b (s : ℕ) =>
      let idx : ℤ := ((ci * sps : ℕ) : ℤ) - ((sps / 2 : ℕ) : ℤ) + ((s : ℕ) : ℤ)
      if 0 ≤ idx ∧ idx < (total : ℤ) then
        let n := idx.toNat
        let old := b.getD n (0, 0)
        b.set n (old.1, old.2 + (q_prn.getD ci 0 : ℚ) * pulse s)
      else b) b) b

/-- The normalization loop: `iq_samples[i] *= 1/√2`. -/
def norm_pass (total : ℕ) (normF : ℚ) (b : List (ℚ × ℚ)) : List (ℚ × ℚ) :=
  (List.range total).foldl (fun b i =>
    let old := b.getD i (0, 0)
    b.set i (normF * old.1, normF * old.2)) b

/-- The rotation loop: `iq_samples[i] *= exp(jπ/4)` as a complex
multiplication with coefficients `(rotC, rotS)`. -/
def rot_pass (total : ℕ) (rotC rotS : ℚ) (b : List (ℚ × ℚ)) : List (ℚ × ℚ) :=
  (List.range total).foldl (fun b i =>
    let old := b.getD i (0, 0)
    b.set i (old.1 * rotC - old.2 * rotS, old.1 * rotS + old.2 * rotC)) b

/-- The sample-generation section of `oqpsk_modulate_frame` (`part_003`):
zero-fill, I pulses, delayed Q pulses, normalization, rotation. -/
def modulate_samples (i_prn q_prn : List ℤ) (sps : ℕ) (pulse : ℕ → ℚ)
    (normF rotC rotS : ℚ) (buf0 : List (ℚ × ℚ)) : List (ℚ × ℚ) :=
  let total := 38400 * sps
  rot_pass total rotC rotS
    (norm_pass total normF
      (q_pass q_prn sps total pulse
        (i_pass i_prn sps pulse
          (init_pass total buf0))))

/-- Embedding of `oqpsk_modulate_frame` (`part_003`): build the 300-bit
transmission frame, split it into channels, generate the two 38400-chip
PRN runs (the C generates them in 150 chunks of 256 with the LFSR state
carried across chunks, which is one continuous run per channel), spread
them with the channel bits, and fill the sample buffer; the returned
count is `total_samples = 38400 * sps`. -/
def oqpsk_modulate_frame (frame_bits : List ℕ) (sps : ℕ) (pulse : ℕ → ℚ)
    (normF rotC rotS : ℚ) (buf0 : List (ℚ × ℚ)) : List (ℚ × ℚ) × ℕ :=
  let tx_frame := build_transmission_frame frame_bits
  let i_prn := spread (oqpsk_i_bits tx_frame) (PRN.prn_chips 38400 PRN.PRN_INIT_NORMAL_I)
  let q_prn := spread (oqpsk_q_bits tx_frame) (PRN.prn_chips 38400 PRN.PRN_INIT_NORMAL_Q)
  (modulate_samples i_prn q_prn sps pulse normF rotC rotS buf0, 38400 * sps)

end OqpskHalfSine

/-! ## The fractional-rate OQPSK modulator (`src/src/oqpsk_modulator.c`,
the 2.5 MHz build with an alternating preamble and bit = 1 keeping the
PRN). -/

namespace OqpskFrac

/-- Embedding of `build_transmission_frame`
(`src/src/oqpsk_modulator.c`): zero the 300-bit array, write the
alternating `0,1,0,1,...` 50-bit preamble, and copy the first 250 frame
bits behind it. -/
def build_transmission_frame (frame_bits : List ℕ) : List ℕ :=
  (List.range 50).map (fun i => i % 2) ++
    (frame_bits.take 250 ++ List.replicate (250 - (frame_bits.take 250).length) 0)

/-- The per-chip spreading of `oqpsk_modulate_frame`
(`src/src/oqpsk_modulator.c`, lines 192..198): a nonzero data bit keeps
the PRN chip, a zero bit negates it. -/
def spread_chip (bit : ℕ) (chip : ℤ) : ℤ :=
  if bit ≠ 0 then chip else -chip

/-- The spreading pass of `oqpsk_modulate_frame`
(`src/src/oqpsk_modulator.c`), indexed like the half-sine version. -/
def spread (bits : List ℕ) (prn : List ℤ) : List ℤ :=
  (List.range 38400).map (fun chip_idx => spread_chip (bits.getD (chip_idx / 256) 0) (prn.getD chip_idx 0))

end OqpskFrac

/-! ## Helper lemmas -/

/-- `getD` of a mapped `range` below the bound evaluates the function. -/
theorem getD_map_range {α : Type} (f : ℕ → α) {i n : ℕ} (h : i < n) (d : α) :
    ((List.range n).map f).getD i d = f i := by
  rw [List.getD_eq_getElem?_getD, List.getElem?_map, List.getElem?_range h]
  rfl

/-- `getD` after `set` at the written position. -/
theorem getD_set_self {α : Type} {l : List α} {i : ℕ} (h : i < l.length) (v d : α) :
    (l.set i v).getD i d = v := by
  rw [List.getD_eq_getElem?_getD, List.getElem?_set_self h]
  rfl

/-- `getD` after `set` at a different position. -/
theorem getD_set_ne {α : Type} {l : List α} {i j : ℕ} (h : i ≠ j) (v d : α) :
    (l.set i v).getD j d = l.getD j d := by
  rw [List.getD_eq_getElem?_getD, List.getElem?_set_ne h, ← List.getD_eq_getElem?_getD]

/-- A predicate preserved by each step is preserved by `foldl`. -/
theorem foldl_inv {α β : Type} (P : α → Prop) (f : α → β → α)
    (hf : ∀ a b, P a → P (f a b)) :
    ∀ (l : List β) (a : α), P a → P (l.foldl f a) := by
  intro l
  induction l with
  | nil => intro a ha; exact ha
  | cons x xs ih => intro a ha; exact ih (f a x) (hf a x ha)

/-- A binary relation preserved by each step is preserved by parallel
`foldl`s of the same function. -/
theorem foldl_rel {α β : Type} (R : α → α → Prop) (f : α → β → α) :
    ∀ (l : List β), (∀ a a' b, b ∈ l → R a a' → R (f a b) (f a' b)) →
      ∀ a a', R a a' → R (l.foldl f a) (l.foldl f a') := by
  intro l
  induction l with
  | nil => intro _ a a' h; exact h
  | cons x xs ih =>
    intro hf a a' h
    exact ih (fun a a' b hb => hf a a' b (List.mem_cons_of_mem x hb))
      (f a x) (f a' x) (hf a a' x (List.mem_cons_self x xs) h)

namespace T018

@[simp] theorem length_write_bits (n v : ℕ) : (write_bits n v).length = n := by
  simp [write_bits]

theorem getD_write_bits {i n : ℕ} (v : ℕ) (h : i < n) :
    (write_bits n v).getD i 0 = (v >>> (n - 1 - i)) &&& 1 :=
  getD_map_range _ h 0

/-- Entries written by `write_bits` are single bits. -/
theorem write_bits_mem {b n v : ℕ} (hb : b ∈ write_bits n v) : b = 0 ∨ b = 1 := by
  simp only [write_bits, List.mem_map] at hb
  obtain ⟨i, -, rfl⟩ := hb
  rw [Nat.and_one_is_mod]
  exact Nat.mod_two_eq_zero_or_one _

/-- `write_bits` only depends on the low `n` bits of the value. -/
theorem write_bits_mod (n v : ℕ) : write_bits n (v % 2 ^ n) = write_bits n v := by
  unfold write_bits
  apply List.map_congr_left
  intro i hi
  rw [List.mem_range] at hi
  have hk : n - 1 - i < n := by omega
  rw [Nat.and_one_is_mod, Nat.and_one_is_mod, Nat.shiftRight_eq_div_pow,
    Nat.shiftRight_eq_div_pow]
  obtain ⟨m, hm⟩ : ∃ m, n = (n - 1 - i) + (1 + m) := ⟨n - (n - 1 - i) - 1, by omega⟩
  generalize hg : n - 1 - i = k at hm ⊢
  rw [hm, pow_add, Nat.mod_mul_right_div_self, pow_add, pow_one,
    Nat.mod_mul_right_mod (v / 2 ^ k) 2 (2 ^ m)]

/-- The BCH remainder is masked to 48 bits, hence below `2^48`. -/
theorem compute_bch_lt (data : List ℕ) : compute_bch_250_202 data < 2 ^ 48 := by
  unfold compute_bch_250_202
  exact lt_of_le_of_lt Nat.and_le_right (by norm_num)

end T018

/-- A power of two ORed with a smaller number is their sum. -/
theorem two_pow_or_of_lt {r n : ℕ} (h : r < 2 ^ n) : 2 ^ n ||| r = 2 ^ n + r := by
  have := Nat.mul_add_lt_is_or h 1
  simpa [Nat.mul_one] using this.symm

/-- Folding the bit-test/OR accumulation of `t018_verify_bch` over the bit
positions `0..n-1` (as a `foldr`, highest position first) rebuilds the low
`n` bits of `p` on top of the accumulator. -/
theorem foldr_or_bits (p : ℕ) :
    ∀ (n acc : ℕ),
      (List.range n).foldr
          (fun j acc => if (p >>> j) &&& 1 ≠ 0 then acc ||| (1 <<< j) else acc) acc
        = acc ||| p % 2 ^ n := by
  intro n
  induction n with
  | zero => intro acc; simp [Nat.mod_one]
  | succ n ih =>
    intro acc
    rw [List.range_succ, List.foldr_append, List.foldr_cons, List.foldr_nil, ih]
    have hb : (p >>> n) &&& 1 = p / 2 ^ n % 2 := by
      rw [Nat.and_one_is_mod, Nat.shiftRight_eq_div_pow]
    have hsplit : p % 2 ^ (n + 1) = p % 2 ^ n + 2 ^ n * (p / 2 ^ n % 2) := by
      rw [pow_succ, Nat.mod_mul]
    rcases Nat.mod_two_eq_zero_or_one (p / 2 ^ n) with h0 | h1
    · rw [if_neg (by simp [hb, h0]), hsplit, h0, Nat.mul_zero, Nat.add_zero]
    · rw [if_pos (by simp [hb, h1]), hsplit, h1, Nat.mul_one, Nat.shiftLeft_eq, Nat.one_mul,
        Nat.or_assoc, two_pow_or_of_lt (Nat.mod_lt _ (Nat.two_pow_pos n)), Nat.add_comm]

/-- The parity-repacking fold of `t018_verify_bch` recovers `p` from its
48 bits read MSB-first, for any `p < 2^48`. -/
theorem foldl_or_bits_eq {p : ℕ} (hp : p < 2 ^ 48) :
    (List.range 48).foldl
        (fun acc i => if (p >>> (47 - i)) &&& 1 ≠ 0 then acc ||| (1 <<< (47 - i)) else acc) 0
      = p := by
  have hmap : (List.range 48).map (fun i => 47 - i) = (List.range 48).reverse := by decide
  calc
    (List.range 48).foldl
        (fun acc i => if (p >>> (47 - i)) &&& 1 ≠ 0 then acc ||| (1 <<< (47 - i)) else acc) 0
      = ((List.range 48).map (fun i => 47 - i)).foldl
          (fun acc j => if (p >>> j) &&& 1 ≠ 0 then acc ||| (1 <<< j) else acc) 0 := by
        rw [List.foldl_map]
    _ = ((List.range 48).reverse).foldl
          (fun acc j => if (p >>> j) &&& 1 ≠ 0 then acc ||| (1 <<< j) else acc) 0 := by
        rw [hmap]
    _ = (List.range 48).foldr
          (fun j acc => if (p >>> j) &&& 1 ≠ 0 then acc ||| (1 <<< j) else acc) 0 := by
        rw [List.foldl_reverse]
    _ = 0 ||| p % 2 ^ 48 := foldr_or_bits p 48 0
    _ = p := by rw [Nat.zero_or, Nat.mod_eq_of_lt hp]

namespace T018

/-- `t018_verify_bch` succeeds on any frame made of a 2-bit header, a
202-bit information block, and the MSB-first parity bits of that block:
the shape in which `t018_build_frame` assembles its output. -/
theorem verify_bch_of_parity (hdr info : List ℕ) (hhdr : hdr.length = 2)
    (hinfo : info.length = 202) :
    t018_verify_bch (hdr ++ info ++
        (List.range 48).map (fun i => (compute_bch_250_202 info >>> (47 - i)) &&& 1)) = 1 := by
  set p := compute_bch_250_202 info with hp
  set par := (List.range 48).map (fun i => (p >>> (47 - i)) &&& 1) with hpar
  have hdrop : ((hdr ++ info ++ par).drop 2) = info ++ par := by
    rw [List.append_assoc, List.drop_left' hhdr]
  have htake : (info ++ par).take 202 = info := List.take_left' hinfo
  have hgetD : ∀ a : ℕ, ∀ i ∈ List.range 48,
      (if (hdr ++ info ++ par).getD (204 + i) 0 ≠ 0 then a ||| (1 <<< (47 - i)) else a)
        = (if (p >>> (47 - i)) &&& 1 ≠ 0 then a ||| (1 <<< (47 - i)) else a) := by
    intro a i hi
    rw [List.mem_range] at hi
    have hv : (hdr ++ info ++ par).getD (204 + i) 0 = (p >>> (47 - i)) &&& 1 := by
      rw [List.append_assoc, List.getD_append_right _ _ _ _ (by simp [hhdr]; omega),
        List.getD_append_right _ _ _ _ (by simp [hinfo, hhdr]; omega)]
      have harith : 204 + i - hdr.length - info.length = i := by omega
      rw [harith, hpar, getD_map_range _ hi]
    rw [hv]
  have hfold : (List.range 48).foldl
      (fun acc i => if (hdr ++ info ++ par).getD (204 + i) 0 ≠ 0
        then acc ||| (1 <<< (47 - i)) else acc) 0 = p := by
    rw [List.foldl_ext _
      (fun acc i => if (p >>> (47 - i)) &&& 1 ≠ 0 then acc ||| (1 <<< (47 - i)) else acc)
      0 hgetD]
    exact foldl_or_bits_eq (hp ▸ compute_bch_lt info)
  show (if (List.range 48).foldl
      (fun acc i => if (hdr ++ info ++ par).getD (204 + i) 0 ≠ 0
        then acc ||| (1 <<< (47 - i)) else acc) 0
      = compute_bch_250_202 (((hdr ++ info ++ par).drop 2).take 202) then 1 else 0) = 1
  rw [hfold, hdrop, htake, ← hp, if_pos rfl]

@[simp] theorem length_lfsr_run (n s : ℕ) : (lfsr_run n s).length = n := by
  induction n generalizing s with
  | zero => rfl
  | succ n ih => simp [lfsr_run, ih]

@[simp] theorem length_encode_position (la lo : ℚ) (v : ℕ) :
    (t018_encode_position la lo v).length = 47 := by
  simp [t018_encode_position]

@[simp] theorem length_set_rotating_field (cfg : beacon_config) (e : env)
    (rf : rotating_field_type) : (set_rotating_field cfg e rf).length = 48 := by
  cases rf <;> simp [set_rotating_field, apply_ite List.length]

@[simp] theorem length_info_bits (cfg : beacon_config) (e : env) :
    (t018_info_bits cfg e).length = 202 := by
  simp [t018_info_bits]

@[simp] theorem length_build_frame (cfg : beacon_config) (e : env) :
    (t018_build_frame cfg e).length = 252 := by
  simp [t018_build_frame]

end T018

namespace T018

/-- A 0/1-valued conditional is a single bit. -/
theorem ite_bit {c : Prop} [Decidable c] :
    (if c then (1 : ℕ) else 0) = 0 ∨ (if c then (1 : ℕ) else 0) = 1 := by
  by_cases h : c <;> simp [h]

/-- Entries emitted by the test-mode G.008 scramble loop are single bits. -/
theorem lfsr_run_mem {b n s : ℕ} (hb : b ∈ lfsr_run n s) : b = 0 ∨ b = 1 := by
  induction n generalizing s with
  | zero => simp [lfsr_run] at hb
  | succ n ih =>
    simp only [lfsr_run, List.mem_cons] at hb
    rcases hb with rfl | hb
    · rw [Nat.and_one_is_mod]
      exact Nat.mod_two_eq_zero_or_one _
    · exact ih hb

/-- Entries of the encoded position block are single bits. -/
theorem encode_position_mem {b : ℕ} {la lo : ℚ} {v : ℕ}
    (hb : b ∈ t018_encode_position la lo v) : b = 0 ∨ b = 1 := by
  simp only [t018_encode_position, List.append_assoc, List.mem_append, List.cons_append,
    List.nil_append, List.mem_cons] at hb
  rcases hb with rfl | hb | hb | rfl | hb | hb
  · exact ite_bit
  · exact write_bits_mem hb
  · exact write_bits_mem hb
  · exact ite_bit
  · exact write_bits_mem hb
  · exact write_bits_mem hb

/-- Entries of the rotating field are single bits. -/
theorem set_rotating_field_mem {b : ℕ} {cfg : beacon_config} {e : env}
    {rf : rotating_field_type} (hb : b ∈ set_rotating_field cfg e rf) : b = 0 ∨ b = 1 := by
  cases rf <;>
    simp only [set_rotating_field, List.append_assoc, List.mem_append] at hb
  · rcases hb with hb | hb | hb | hb | hb
    · exact write_bits_mem hb
    · exact write_bits_mem hb
    · exact write_bits_mem hb
    · exact write_bits_mem hb
    · by_cases ht : cfg.test_mode ≠ 0
      · rw [if_pos ht] at hb
        exact lfsr_run_mem hb
      · rw [if_neg ht] at hb
        exact write_bits_mem hb
  · rcases hb with hb | hb | hb | hb
    · exact write_bits_mem hb
    · exact write_bits_mem hb
    · exact write_bits_mem hb
    · exact write_bits_mem hb
  · rcases hb with hb | hb | hb
    · exact write_bits_mem hb
    · exact write_bits_mem hb
    · exact write_bits_mem hb
  · rcases hb with hb | hb | hb
    · exact write_bits_mem hb
    · exact write_bits_mem hb
    · exact write_bits_mem hb

/-- Entries of the 202-bit information block are single bits. -/
theorem info_bits_mem {b : ℕ} {cfg : beacon_config} {e : env}
    (hb : b ∈ t018_info_bits cfg e) : b = 0 ∨ b = 1 := by
  simp only [t018_info_bits, List.append_assoc, List.mem_append, List.cons_append,
    List.nil_append, List.mem_cons, List.mem_singleton] at hb
  rcases hb with hb | hb | hb | rfl | rfl | rfl | hb | hb | hb | hb | hb | hb | hb | hb
  · exact write_bits_mem hb
  · exact write_bits_mem hb
  · exact write_bits_mem hb
  · exact Or.inl rfl
  · exact Or.inr rfl
  · exact ite_bit
  · exact encode_position_mem (List.mem_of_mem_take hb)
  · exact encode_position_mem (List.mem_of_mem_drop (List.mem_of_mem_take hb))
  · exact write_bits_mem hb
  · exact write_bits_mem hb
  · exact write_bits_mem hb
  · exact write_bits_mem hb
  · exact write_bits_mem hb
  · exact set_rotating_field_mem hb

/-- Entries of the complete 252-bit frame are single bits. -/
theorem build_frame_mem {b : ℕ} {cfg : beacon_config} {e : env}
    (hb : b ∈ t018_build_frame cfg e) : b = 0 ∨ b = 1 := by
  simp only [t018_build_frame, List.append_assoc, List.mem_append, List.cons_append,
    List.nil_append, List.mem_cons, List.mem_singleton] at hb
  rcases hb with rfl | rfl | hb | hb
  · exact ite_bit
  · exact Or.inl rfl
  · exact info_bits_mem hb
  · simp only [List.mem_map] at hb
    obtain ⟨i, -, rfl⟩ := hb
    rw [Nat.and_one_is_mod]
    exact Nat.mod_two_eq_zero_or_one _

end T018

/-- Writing a constant at every position of `range n` makes every position
below `n` hold that constant. -/
theorem foldl_set_range_getD {α : Type} (v d : α) :
    ∀ (n : ℕ) (b : List α), n ≤ b.length → ∀ i, i < n →
      (((List.range n).foldl (fun b j => b.set j v) b)).getD i d = v := by
  intro n
  induction n with
  | zero => intro b _ i hi; omega
  | succ n ih =>
    intro b hb i hi
    rw [List.range_succ, List.foldl_append, List.foldl_cons, List.foldl_nil]
    have hlen : ((List.range n).foldl (fun b j => b.set j v) b).length = b.length := by
      refine foldl_inv (fun l => l.length = b.length) _ (fun a x ha => ?_) _ b rfl
      show (a.set x v).length = b.length
      rw [List.length_set, ha]
    by_cases hin : i = n
    · subst hin
      exact getD_set_self (by omega) v d
    · rw [getD_set_ne (Ne.symm hin)]
      exact ih b (by omega) i (by omega)

/-- Folding steps that preserve length preserves length. -/
theorem foldl_length {α β : Type} (f : List α → β → List α)
    (hf : ∀ b x, (f b x).length = b.length) (l : List β) (b : List α) :
    (l.foldl f b).length = b.length := by
  refine foldl_inv (fun c => c.length = b.length) _ (fun a x ha => ?_) _ b rfl
  show (f a x).length = b.length
  rw [hf, ha]

/-- A read-modify-write at a position below `total` preserves pointwise
agreement of the prefixes below `total`. -/
theorem getD_prefix_set {α : Type} (d : α) {total : ℕ} {b b' : List α} {idx : ℕ}
    (hidx : idx < total) (hb : total ≤ b.length) (hb' : total ≤ b'.length)
    (hpre : ∀ i, i < total → b.getD i d = b'.getD i d) (f : α → α) :
    ∀ i, i < total → (b.set idx (f (b.getD idx d))).getD i d
      = (b'.set idx (f (b'.getD idx d))).getD i d := by
  intro i hi
  by_cases hij : idx = i
  · subst hij
    rw [getD_set_self (by omega) _ d, getD_set_self (by omega) _ d, hpre idx hidx]
  · rw [getD_set_ne hij, getD_set_ne hij]
    exact hpre i hi

namespace OqpskHalfSine

/-- All five passes preserve the buffer length. -/
theorem length_modulate_samples (i_prn q_prn : List ℤ) (sps : ℕ) (pulse : ℕ → ℚ)
    (normF rotC rotS : ℚ) (buf0 : List (ℚ × ℚ)) :
    (modulate_samples i_prn q_prn sps pulse normF rotC rotS buf0).length = buf0.length := by
  unfold modulate_samples rot_pass norm_pass q_pass i_pass init_pass
  rw [foldl_length _ (fun b x => List.length_set ..)]
  rw [foldl_length _ (fun b x => List.length_set ..)]
  rw [foldl_length _ (fun b x => ?_)]
  · rw [foldl_length _ (fun b x => ?_)]
    · rw [foldl_length _ (fun b x => List.length_set ..)]
    · exact foldl_length _ (fun b y => List.length_set ..) _ b
  · refine foldl_length _ (fun b y => ?_) _ b
    simp [apply_ite List.length]

/-- After `init_pass`, every position below `total` holds `(0, 0)`. -/
theorem init_pass_getD (total : ℕ) (b : List (ℚ × ℚ)) (hb : total ≤ b.length)
    {i : ℕ} (hi : i < total) : (init_pass total b).getD i (0, 0) = (0, 0) :=
  foldl_set_range_getD _ _ total b hb i hi

/-- `init_pass` preserves the buffer length. -/
theorem length_init_pass (total : ℕ) (b : List (ℚ × ℚ)) :
    (init_pass total b).length = b.length :=
  foldl_length _ (fun b x => List.length_set ..) _ b

/-- The I-channel pulse pass preserves capacity and pointwise agreement of
two buffers below `38400 * sps`. -/
theorem i_pass_rel (i_prn : List ℤ) (sps : ℕ) (pulse : ℕ → ℚ) (b b' : List (ℚ × ℚ))
    (h : 38400 * sps ≤ b.length ∧ 38400 * sps ≤ b'.length ∧
      ∀ i, i < 38400 * sps → b.getD i (0, 0) = b'.getD i (0, 0)) :
    38400 * sps ≤ (i_pass i_prn sps pulse b).length ∧
      38400 * sps ≤ (i_pass i_prn sps pulse b').length ∧
      ∀ i, i < 38400 * sps →
        (i_pass i_prn sps pulse b).getD i (0, 0) = (i_pass i_prn sps pulse b').getD i (0, 0) := by
  unfold i_pass
  refine foldl_rel
    (fun c c' => 38400 * sps ≤ c.length ∧ 38400 * sps ≤ c'.length ∧
      ∀ i, i < 38400 * sps → c.getD i (0, 0) = c'.getD i (0, 0)) _ _ ?_ b b' h
  intro a a' ci hci hR
  rw [List.mem_range] at hci
  refine foldl_rel
    (fun c c' => 38400 * sps ≤ c.length ∧ 38400 * sps ≤ c'.length ∧
      ∀ i, i < 38400 * sps → c.getD i (0, 0) = c'.getD i (0, 0)) _ _ ?_ a a' hR
  intro c c' s hs hRc
  rw [List.mem_range] at hs
  obtain ⟨h1, h2, h3⟩ := hRc
  have hidx : ci * sps + s < 38400 * sps := by
    calc ci * sps + s < ci * sps + sps := by omega
    _ = (ci + 1) * sps := by ring
    _ ≤ 38400 * sps := Nat.mul_le_mul_right _ (by omega)
  exact ⟨by simpa [List.length_set] using h1, by simpa [List.length_set] using h2,
    getD_prefix_set (0, 0) hidx h1 h2 h3
      (fun old => (old.1 + (i_prn.getD ci 0 : ℚ) * pulse s, old.2))⟩

/-- The delayed Q-channel pulse pass preserves capacity and pointwise
agreement of two buffers below `total`. -/
theorem q_pass_rel (q_prn : List ℤ) (sps total : ℕ) (pulse : ℕ → ℚ)
    (b b' : List (ℚ × ℚ))
    (h : total ≤ b.length ∧ total ≤ b'.length ∧
      ∀ i, i < total → b.getD i (0, 0) = b'.getD i (0, 0)) :
    total ≤ (q_pass q_prn sps total pulse b).length ∧
      total ≤ (q_pass q_prn sps total pulse b').length ∧
      ∀ i, i < total →
        (q_pass q_prn sps total pulse b).getD i (0, 0)
          = (q_pass q_prn sps total pulse b').getD i (0, 0) := by
  unfold q_pass
  refine foldl_rel
    (fun c c' => total ≤ c.length ∧ total ≤ c'.length ∧
      ∀ i, i < total → c.getD i (0, 0) = c'.getD i (0, 0)) _ _ ?_ b b' h
  intro a a' ci hci hR
  refine foldl_rel
    (fun c c' => total ≤ c.length ∧ total ≤ c'.length ∧
      ∀ i, i < total → c.getD i (0, 0) = c'.getD i (0, 0)) _ _ ?_ a a' hR
  intro c c' s hs hRc
  obtain ⟨h1, h2, h3⟩ := hRc
  by_cases hc : 0 ≤ ((ci * sps : ℕ) : ℤ) - ((sps / 2 : ℕ) : ℤ) + ((s : ℕ) : ℤ) ∧
      ((ci * sps : ℕ) : ℤ) - ((sps / 2 : ℕ) : ℤ) + ((s : ℕ) : ℤ) < (total : ℤ)
  · have hidx : (((ci * sps : ℕ) : ℤ) - ((sps / 2 : ℕ) : ℤ) + ((s : ℕ) : ℤ)).toNat < total := by
      omega
    simp only [if_pos hc]
    exact ⟨by simpa [List.length_set] using h1, by simpa [List.length_set] using h2,
      getD_prefix_set (0, 0) hidx h1 h2 h3
        (fun old => (old.1, old.2 + (q_prn.getD ci 0 : ℚ) * pulse s))⟩
  · simp only [if_neg hc]
    exact ⟨h1, h2, h3⟩

/-- The normalization pass preserves capacity and pointwise agreement of
two buffers below `total`. -/
theorem norm_pass_rel (total : ℕ) (normF : ℚ) (b b' : List (ℚ × ℚ))
    (h : total ≤ b.length ∧ total ≤ b'.length ∧
      ∀ i, i < total → b.getD i (0, 0) = b'.getD i (0, 0)) :
    total ≤ (norm_pass total normF b).length ∧
      total ≤ (norm_pass total normF b').length ∧
      ∀ i, i < total →
        (norm_pass total normF b).getD i (0, 0) = (norm_pass total normF b').getD i (0, 0) := by
  unfold norm_pass
  refine foldl_rel
    (fun c c' => total ≤ c.length ∧ total ≤ c'.length ∧
      ∀ i, i < total → c.getD i (0, 0) = c'.getD i (0, 0)) _ _ ?_ b b' h
  intro a a' j hj hR
  rw [List.mem_range] at hj
  obtain ⟨h1, h2, h3⟩ := hR
  exact ⟨by simpa [List.length_set] using h1, by simpa [List.length_set] using h2,
    getD_prefix_set (0, 0) hj h1 h2 h3 (fun old => (normF * old.1, normF * old.2))⟩

/-- The rotation pass preserves capacity and pointwise agreement of two
buffers below `total`. -/
theorem rot_pass_rel (total : ℕ) (rotC rotS : ℚ) (b b' : List (ℚ × ℚ))
    (h : total ≤ b.length ∧ total ≤ b'.length ∧
      ∀ i, i < total → b.getD i (0, 0) = b'.getD i (0, 0)) :
    total ≤ (rot_pass total rotC rotS b).length ∧
      total ≤ (rot_pass total rotC rotS b').length ∧
      ∀ i, i < total →
        (rot_pass total rotC rotS b).getD i (0, 0)
          = (rot_pass total rotC rotS b').getD i (0, 0) := by
  unfold rot_pass
  refine foldl_rel
    (fun c c' => total ≤ c.length ∧ total ≤ c'.length ∧
      ∀ i, i < total → c.getD i (0, 0) = c'.getD i (0, 0)) _ _ ?_ b b' h
  intro a a' j hj hR
  rw [List.mem_range] at hj
  obtain ⟨h1, h2, h3⟩ := hR
  exact ⟨by simpa [List.length_set] using h1, by simpa [List.length_set] using h2,
    getD_prefix_set (0, 0) hj h1 h2 h3
      (fun old => (old.1 * rotC - old.2 * rotS, old.1 * rotS + old.2 * rotC))⟩

/-- Every sample below `38400 * sps` produced by `modulate_samples` is
independent of the prior contents of the output buffer: all of them are
initialized by the zero-fill loop before being accumulated into. -/
theorem modulate_samples_prefix (i_prn q_prn : List ℤ) (sps : ℕ) (pulse : ℕ → ℚ)
    (normF rotC rotS : ℚ) (buf0 buf0' : List (ℚ × ℚ))
    (h : 38400 * sps ≤ buf0.length) (h' : 38400 * sps ≤ buf0'.length) :
    ∀ i, i < 38400 * sps →
      (modulate_samples i_prn q_prn sps pulse normF rotC rotS buf0).getD i (0, 0)
        = (modulate_samples i_prn q_prn sps pulse normF rotC rotS buf0').getD i (0, 0) := by
  have h0 : 38400 * sps ≤ (init_pass (38400 * sps) buf0).length ∧
      38400 * sps ≤ (init_pass (38400 * sps) buf0').length ∧
      ∀ i, i < 38400 * sps →
        (init_pass (38400 * sps) buf0).getD i (0, 0)
          = (init_pass (38400 * sps) buf0').getD i (0, 0) := by
    refine ⟨by rw [length_init_pass]; exact h, by rw [length_init_pass]; exact h', ?_⟩
    intro i hi
    rw [init_pass_getD _ _ h hi, init_pass_getD _ _ h' hi]
  exact (rot_pass_rel _ rotC rotS _ _
    (norm_pass_rel _ normF _ _
      (q_pass_rel q_prn sps _ pulse _ _
        (i_pass_rel i_prn sps pulse _ _ h0)))).2.2

end OqpskHalfSine

/-! ## Claim theorems -/

/-- **C1.** For every `BeaconConfig` (and every state of the impure inputs
read by the frame builder), the 252-bit frame produced by
`t018_build_frame` passes BCH verification: `t018_verify_bch` applied to
the built frame returns 1, i.e. the 48 parity bits at frame positions
204..251 equal the BCH(250,202) remainder recomputed over the 202
information bits at frame positions 2..203. -/
theorem C1_build_frame_passes_bch (cfg : T018.beacon_config) (e : T018.env) :
    T018.t018_verify_bch (T018.t018_build_frame cfg e) = 1 := by
  unfold T018.t018_build_frame
  exact T018.verify_bch_of_parity _ _ rfl (T018.length_info_bits cfg e)

/-- **C2.** Over the T.018 Appendix B.1 test vector — the 202-bit
information string whose 51 hex digits
`00E608F4C986196188A047C000000000000FFFC0100C1A00960` expand to 204 bits
of which the information string is the first 202 (the final two bits of
the last nibble being the zero padding) — the BCH(250,202) parity
computed by `compute_bch_250_202` equals `0x492A4FC57A49`. -/
theorem C2_bch_appendix_b1_vector :
    T018.compute_bch_250_202
        ((T018.write_bits 204 0x00E608F4C986196188A047C000000000000FFFC0100C1A00960).take 202)
      = 0x492A4FC57A49 := by decide

/-- **C3.** Starting the 23-stage LFSR (feedback `x0 XOR x18` injected
into stage 22, shift right, output = stage 0 before the shift) from state
`0x000001`, the first 64 emitted chips, packed MSB-first with bit 1
standing for chip −1 and bit 0 for chip +1, equal
`0x80000108421284A1`; equivalently `prn_verify_table_2_2` returns 1. -/
theorem C3_prn_table_2_2 :
    PRN.pack_chips (PRN.prn_chips 64 PRN.PRN_INIT_NORMAL_I) = 0x80000108421284A1 ∧
      PRN.prn_verify_table_2_2 = 1 :=
  ⟨by decide, by decide⟩

/-- **C10.** For every `BeaconConfig` and every state of the impure
inputs, the array produced by `t018_build_frame` has exactly 252 entries
and each of them holds either 0 or 1 (out-of-range reads return the
default 0), so the output is a well-formed bit sequence for every
beacon type and for both rotating-field kinds the builder emits. -/
theorem C10_build_frame_is_bit_sequence (cfg : T018.beacon_config) (e : T018.env) (i : ℕ) :
    (T018.t018_build_frame cfg e).length = 252 ∧
      ((T018.t018_build_frame cfg e).getD i 0 = 0 ∨ (T018.t018_build_frame cfg e).getD i 0 = 1) := by
  refine ⟨T018.length_build_frame cfg e, ?_⟩
  by_cases hi : i < (T018.t018_build_frame cfg e).length
  · rw [List.getD_eq_getElem _ _ hi]
    exact T018.build_frame_mem (List.getElem_mem hi)
  · rw [List.getD_eq_default _ _ (by omega)]
    exact Or.inl rfl

namespace PRN

/-- Splitting an iteration count: running `a + b` steps is running `a`
steps and then `b` steps. -/
theorem prn_iter_add (a b s : ℕ) : prn_iter (a + b) s = prn_iter b (prn_iter a s) := by
  induction a generalizing s with
  | zero => rw [Nat.zero_add]; rfl
  | succ a ih =>
    rw [Nat.succ_add]
    show prn_iter (a + b) (prn_step s) = prn_iter b (prn_iter a (prn_step s))
    exact ih (prn_step s)

end PRN

/-- **C4 (counterexample).** The claim that 64 LFSR steps from the
Normal-mode I-channel initial state `0x000001` reach the Normal-mode
Q-channel constant `PRN_INIT_NORMAL_Q = 0x1AC1FC` is false: 64 steps
reach `0x485634`. -/
theorem C4_counterexample_64_steps :
    PRN.prn_iter 64 PRN.PRN_INIT_NORMAL_I ≠ PRN.PRN_INIT_NORMAL_Q := by decide

/-- **C4 (amended).** `PRN_INIT_NORMAL_Q = 0x1AC1FC` is not the I-channel
initial state advanced by 64 LFSR steps: 64 iterations of the step
function (feedback `x0 XOR x18`, shift right, feedback into stage 22,
23-bit mask) on `0x000001` yield `0x485634`.  The constant is instead the
published T.018 Table 2.2 Q-channel pattern — its first 64 chips pack
MSB-first to `0x3F8358BAD030F231`, the reference value carried in
`tools/verify_prn.c` — and it sits 38400 steps (one burst of per-channel
chips) *before* the I-channel state: 38400 iterations on `0x1AC1FC`
return to `0x000001`. -/
theorem C4_amended_q_initial_state :
    PRN.prn_iter 64 PRN.PRN_INIT_NORMAL_I = 0x485634 ∧
      PRN.pack_chips (PRN.prn_chips 64 PRN.PRN_INIT_NORMAL_Q) = 0x3F8358BAD030F231 ∧
      PRN.prn_iter 38400 PRN.PRN_INIT_NORMAL_Q = PRN.PRN_INIT_NORMAL_I := by
  refine ⟨by decide, by decide, ?_⟩
  show PRN.prn_iter 38400 0x1AC1FC = PRN.PRN_INIT_NORMAL_I
  rw [show (38400 : ℕ) = 600 + 37800 from rfl, PRN.prn_iter_add, show PRN.prn_iter 600 0x1AC1FC = 0x554070 by decide]
  rw [show (37800 : ℕ) = 600 + 37200 from rfl, PRN.prn_iter_add, show PRN.prn_iter 600 0x554070 = 0x78416 by decide]
  rw [show (37200 : ℕ) = 600 + 36600 from rfl, PRN.prn_iter_add, show PRN.prn_iter 600 0x78416 = 0x557423 by decide]
  rw [show (36600 : ℕ) = 600 + 36000 from rfl, PRN.prn_iter_add, show PRN.prn_iter 600 0x557423 = 0x518A75 by decide]
  rw [show (36000 : ℕ) = 600 + 35400 from rfl, PRN.prn_iter_add, show PRN.prn_iter 600 0x518A75 = 0x1296F9 by decide]
  rw [show (35400 : ℕ) = 600 + 34800 from rfl, PRN.prn_iter_add, show PRN.prn_iter 600 0x1296F9 = 0x7CD811 by decide]
  rw [show (34800 : ℕ) = 600 + 34200 from rfl, PRN.prn_iter_add, show PRN.prn_iter 600 0x7CD811 = 0x1AD76D by decide]
  rw [show (34200 : ℕ) = 600 + 33600 from rfl, PRN.prn_iter_add, show PRN.prn_iter 600 0x1AD76D = 0x4A367A by decide]
  rw [show (33600 : ℕ) = 600 + 33000 from rfl, PRN.prn_iter_add, show PRN.prn_iter 600 0x4A367A = 0x7F1E21 by decide]
  rw [show (33000 : ℕ) = 600 + 32400 from rfl, PRN.prn_iter_add, show PRN.prn_iter 600 0x7F1E21 = 0x686D9E by decide]
  rw [show (32400 : ℕ) = 600 + 31800 from rfl, PRN.prn_iter_add, show PRN.prn_iter 600 0x686D9E = 0x46247A by decide]
  rw [show (31800 : ℕ) = 600 + 31200 from rfl, PRN.prn_iter_add, show PRN.prn_iter 600 0x46247A = 0x205A29 by decide]
  rw [show (31200 : ℕ) = 600 + 30600 from rfl, PRN.prn_iter_add, show PRN.prn_iter 600 0x205A29 = 0x75C400 by decide]
  rw [show (30600 : ℕ) = 600 + 30000 from rfl, PRN.prn_iter_add, show PRN.prn_iter 600 0x75C400 = 0x1CB626 by decide]
  rw [show (30000 : ℕ) = 600 + 29400 from rfl, PRN.prn_iter_add, show PRN.prn_iter 600 0x1CB626 = 0x3DA5B2 by decide]
  rw [show (29400 : ℕ) = 600 + 28800 from rfl, PRN.prn_iter_add, show PRN.prn_iter 600 0x3DA5B2 = 0x74C0F0 by decide]
  rw [show (28800 : ℕ) = 600 + 28200 from rfl, PRN.prn_iter_add, show PRN.prn_iter 600 0x74C0F0 = 0x476829 by decide]
  rw [show (28200 : ℕ) = 600 + 27600 from rfl, PRN.prn_iter_add, show PRN.prn_iter 600 0x476829 = 0x459259 by decide]
  rw [show (27600 : ℕ) = 600 + 27000 from rfl, PRN.prn_iter_add, show PRN.prn_iter 600 0x459259 = 0x16744F by decide]
  rw [show (27000 : ℕ) = 600 + 26400 from rfl, PRN.prn_iter_add, show PRN.prn_iter 600 0x16744F = 0x9F37A by decide]
  rw [show (26400 : ℕ) = 600 + 25800 from rfl, PRN.prn_iter_add, show PRN.prn_iter 600 0x9F37A = 0x4893E4 by decide]
  rw [show (25800 : ℕ) = 600 + 25200 from rfl, PRN.prn_iter_add, show PRN.prn_iter 600 0x4893E4 = 0x361143 by decide]
  rw [show (25200 : ℕ) = 600 + 24600 from rfl, PRN.prn_iter_add, show PRN.prn_iter 600 0x361143 = 0x7B7791 by decide]
  rw [show (24600 : ℕ) = 600 + 24000 from rfl, PRN.prn_iter_add, show PRN.prn_iter 600 0x7B7791 = 0x1F0178 by decide]
  rw [show (24000 : ℕ) = 600 + 23400 from rfl, PRN.prn_iter_add, show PRN.prn_iter 600 0x1F0178 = 0x1DBCBF by decide]
  rw [show (23400 : ℕ) = 600 + 22800 from rfl, PRN.prn_iter_add, show PRN.prn_iter 600 0x1DBCBF = 0x5BA8B6 by decide]
  rw [show (22800 : ℕ) = 600 + 22200 from rfl, PRN.prn_iter_add, show PRN.prn_iter 600 0x5BA8B6 = 0x27F6B0 by decide]
  rw [show (22200 : ℕ) = 600 + 21600 from rfl, PRN.prn_iter_add, show PRN.prn_iter 600 0x27F6B0 = 0x2ABE7C by decide]
  rw [show (21600 : ℕ) = 600 + 21000 from rfl, PRN.prn_iter_add, show PRN.prn_iter 600 0x2ABE7C = 0x28E224 by decide]
  rw [show (21000 : ℕ) = 600 + 20400 from rfl, PRN.prn_iter_add, show PRN.prn_iter 600 0x28E224 = 0x5A5E38 by decide]
  rw [show (20400 : ℕ) = 600 + 19800 from rfl, PRN.prn_iter_add, show PRN.prn_iter 600 0x5A5E38 = 0x6E6A47 by decide]
  rw [show (19800 : ℕ) = 600 + 19200 from rfl, PRN.prn_iter_add, show PRN.prn_iter 600 0x6E6A47 = 0x38E8EA by decide]
  rw [show (19200 : ℕ) = 600 + 18600 from rfl, PRN.prn_iter_add, show PRN.prn_iter 600 0x38E8EA = 0x181F29 by decide]
  rw [show (18600 : ℕ) = 600 + 18000 from rfl, PRN.prn_iter_add, show PRN.prn_iter 600 0x181F29 = 0xB48AB by decide]
  rw [show (18000 : ℕ) = 600 + 17400 from rfl, PRN.prn_iter_add, show PRN.prn_iter 600 0xB48AB = 0x6A0BC0 by decide]
  rw [show (17400 : ℕ) = 600 + 16800 from rfl, PRN.prn_iter_add, show PRN.prn_iter 600 0x6A0BC0 = 0x3572D5 by decide]
  rw [show (16800 : ℕ) = 600 + 16200 from rfl, PRN.prn_iter_add, show PRN.prn_iter 600 0x3572D5 = 0x66BBEB by decide]
  rw [show (16200 : ℕ) = 600 + 15600 from rfl, PRN.prn_iter_add, show PRN.prn_iter 600 0x66BBEB = 0x436171 by decide]
  rw [show (15600 : ℕ) = 600 + 15000 from rfl, PRN.prn_iter_add, show PRN.prn_iter 600 0x436171 = 0x2D50CA by decide]
  rw [show (15000 : ℕ) = 600 + 14400 from rfl, PRN.prn_iter_add, show PRN.prn_iter 600 0x2D50CA = 0x48CAE9 by decide]
  rw [show (14400 : ℕ) = 600 + 13800 from rfl, PRN.prn_iter_add, show PRN.prn_iter 600 0x48CAE9 = 0x92FDA by decide]
  rw [show (13800 : ℕ) = 600 + 13200 from rfl, PRN.prn_iter_add, show PRN.prn_iter 600 0x92FDA = 0x2D7767 by decide]
  rw [show (13200 : ℕ) = 600 + 12600 from rfl, PRN.prn_iter_add, show PRN.prn_iter 600 0x2D7767 = 0x501E56 by decide]
  rw [show (12600 : ℕ) = 600 + 12000 from rfl, PRN.prn_iter_add, show PRN.prn_iter 600 0x501E56 = 0x306F2B by decide]
  rw [show (12000 : ℕ) = 600 + 11400 from rfl, PRN.prn_iter_add, show PRN.prn_iter 600 0x306F2B = 0x3ED26F by decide]
  rw [show (11400 : ℕ) = 600 + 10800 from rfl, PRN.prn_iter_add, show PRN.prn_iter 600 0x3ED26F = 0x7F6FD9 by decide]
  rw [show (10800 : ℕ) = 600 + 10200 from rfl, PRN.prn_iter_add, show PRN.prn_iter 600 0x7F6FD9 = 0x336556 by decide]
  rw [show (10200 : ℕ) = 600 + 9600 from rfl, PRN.prn_iter_add, show PRN.prn_iter 600 0x336556 = 0x6EF3F1 by decide]
  rw [show (9600 : ℕ) = 600 + 9000 from rfl, PRN.prn_iter_add, show PRN.prn_iter 600 0x6EF3F1 = 0x32F8FD by decide]
  rw [show (9000 : ℕ) = 600 + 8400 from rfl, PRN.prn_iter_add, show PRN.prn_iter 600 0x32F8FD = 0x45850D by decide]
  rw [show (8400 : ℕ) = 600 + 7800 from rfl, PRN.prn_iter_add, show PRN.prn_iter 600 0x45850D = 0x1443BC by decide]
  rw [show (7800 : ℕ) = 600 + 7200 from rfl, PRN.prn_iter_add, show PRN.prn_iter 600 0x1443BC = 0x2BED7F by decide]
  rw [show (7200 : ℕ) = 600 + 6600 from rfl, PRN.prn_iter_add, show PRN.prn_iter 600 0x2BED7F = 0x655153 by decide]
  rw [show (6600 : ℕ) = 600 + 6000 from rfl, PRN.prn_iter_add, show PRN.prn_iter 600 0x655153 = 0x47770A by decide]
  rw [show (6000 : ℕ) = 600 + 5400 from rfl, PRN.prn_iter_add, show PRN.prn_iter 600 0x47770A = 0x77A46F by decide]
  rw [show (5400 : ℕ) = 600 + 4800 from rfl, PRN.prn_iter_add, show PRN.prn_iter 600 0x77A46F = 0x7DC43F by decide]
  rw [show (4800 : ℕ) = 600 + 4200 from rfl, PRN.prn_iter_add, show PRN.prn_iter 600 0x7DC43F = 0x82F24 by decide]
  rw [show (4200 : ℕ) = 600 + 3600 from rfl, PRN.prn_iter_add, show PRN.prn_iter 600 0x82F24 = 0x7E7E80 by decide]
  rw [show (3600 : ℕ) = 600 + 3000 from rfl, PRN.prn_iter_add, show PRN.prn_iter 600 0x7E7E80 = 0x153168 by decide]
  rw [show (3000 : ℕ) = 600 + 2400 from rfl, PRN.prn_iter_add, show PRN.prn_iter 600 0x153168 = 0x687B9A by decide]
  rw [show (2400 : ℕ) = 600 + 1800 from rfl, PRN.prn_iter_add, show PRN.prn_iter 600 0x687B9A = 0x778522 by decide]
  rw [show (1800 : ℕ) = 600 + 1200 from rfl, PRN.prn_iter_add, show PRN.prn_iter 600 0x778522 = 0x67BB09 by decide]
  rw [show (1200 : ℕ) = 600 + 600 from rfl, PRN.prn_iter_add, show PRN.prn_iter 600 0x67BB09 = 0x5F24C3 by decide]
  rw [show PRN.prn_iter 600 0x5F24C3 = 0x1 by decide]
  rfl

/-- **C5 (counterexample).** The claim that the modulator emits `-c` for
every PRN chip `c` of a set data bit is false for the spreading pass of
`src/src/oqpsk_modulator.c`: with every data bit 1 and a PRN chip `+1`,
that pass emits `+1`, not `-1`. -/
theorem C5_counterexample_spreading :
    (OqpskFrac.spread (List.replicate 150 1) (List.replicate 38400 1)).getD 0 0 ≠ -1 := by
  rw [OqpskFrac.spread, getD_map_range _ (by norm_num)]
  decide

/-- **C5 (amended).** The two modulator versions spread with opposite
polarity: in the `part_003` revision the spread chip is `-c` when the
data bit is 1 and `+c` when it is 0 (the T.018 convention the claim
states), while in `src/src/oqpsk_modulator.c` it is `+c` when the data
bit is 1 and `-c` when it is 0. -/
theorem C5_amended_spreading_polarity (bits : List ℕ) (prn : List ℤ)
    (bit chip b : ℕ) (hbit : bit < 150) (hchip : chip < 256)
    (hb : bits.getD bit 0 = b) (hb01 : b = 0 ∨ b = 1) :
    (OqpskHalfSine.spread bits prn).getD (bit * 256 + chip) 0
        = (if b = 1 then -(prn.getD (bit * 256 + chip) 0)
           else prn.getD (bit * 256 + chip) 0) ∧
      (OqpskFrac.spread bits prn).getD (bit * 256 + chip) 0
        = (if b = 1 then prn.getD (bit * 256 + chip) 0
           else -(prn.getD (bit * 256 + chip) 0)) := by
  have hlt : bit * 256 + chip < 38400 := by omega
  have hswap : bit * 256 + chip = 256 * bit + chip := by ring
  have hdiv : (bit * 256 + chip) / 256 = bit := by
    rw [hswap, Nat.mul_add_div (by norm_num), Nat.div_eq_of_lt hchip, Nat.add_zero]
  constructor
  · rw [OqpskHalfSine.spread, getD_map_range _ hlt, hdiv, hb]
    unfold OqpskHalfSine.spread_chip
    rcases hb01 with rfl | rfl <;> simp
  · rw [OqpskFrac.spread, getD_map_range _ hlt, hdiv, hb]
    unfold OqpskFrac.spread_chip
    rcases hb01 with rfl | rfl <;> simp

/-- Witness for C5: data bit 1, PRN chip `+5`, channel position 0. -/
theorem C5_witness :
    (0 : ℕ) < 150 ∧ (0 : ℕ) < 256 ∧ ([1] : List ℕ).getD 0 0 = 1 ∧
      ((OqpskHalfSine.spread [1] [5]).getD (0 * 256 + 0) 0
          = (if (1 : ℕ) = 1 then -(([5] : List ℤ).getD (0 * 256 + 0) 0)
             else ([5] : List ℤ).getD (0 * 256 + 0) 0) ∧
        (OqpskFrac.spread [1] [5]).getD (0 * 256 + 0) 0
          = (if (1 : ℕ) = 1 then ([5] : List ℤ).getD (0 * 256 + 0) 0
             else -(([5] : List ℤ).getD (0 * 256 + 0) 0))) :=
  ⟨by decide, by decide, by decide,
    C5_amended_spreading_polarity [1] [5] 0 0 1 (by decide) (by decide) (by decide)
      (Or.inr rfl)⟩

/-- **C6 (counterexample).** The claim that the 50 preamble bits prepended
by the modulator are all zero is false for `build_transmission_frame` of
`src/src/oqpsk_modulator.c`, whose preamble alternates `0,1`: its bit at
position 1 is 1. -/
theorem C6_counterexample_preamble :
    (OqpskFrac.build_transmission_frame (List.replicate 252 0)).getD 1 0 ≠ 0 := by
  decide

/-- **C6 (amended).** For every input frame, the 50-bit preamble prepended
by the `part_003` revision of `build_transmission_frame` is all zeros, so
the first 25 bits fed to each of the I and Q channels are 0; the
`src/src/oqpsk_modulator.c` version instead prepends the alternating
pattern `0,1,0,1,...`, so its I channel still receives 25 zeros but its
Q channel receives 25 ones. -/
theorem C6_amended_preamble (frame_bits : List ℕ) (i : ℕ) :
    (i < 50 →
      (OqpskHalfSine.build_transmission_frame frame_bits).getD i 0 = 0 ∧
        (OqpskFrac.build_transmission_frame frame_bits).getD i 0 = i % 2) ∧
      (i < 25 →
        (oqpsk_i_bits (OqpskHalfSine.build_transmission_frame frame_bits)).getD i 0 = 0 ∧
          (oqpsk_q_bits (OqpskHalfSine.build_transmission_frame frame_bits)).getD i 0 = 0 ∧
          (oqpsk_i_bits (OqpskFrac.build_transmission_frame frame_bits)).getD i 0 = 0 ∧
          (oqpsk_q_bits (OqpskFrac.build_transmission_frame frame_bits)).getD i 0 = 1) := by
  have h1 : ∀ j, j < 50 → (OqpskHalfSine.build_transmission_frame frame_bits).getD j 0 = 0 := by
    intro j hj
    rw [OqpskHalfSine.build_transmission_frame, List.getD_append _ _ _ _ (by simpa using hj),
      getD_map_range _ hj]
  have h2 : ∀ j, j < 50 →
      (OqpskFrac.build_transmission_frame frame_bits).getD j 0 = j % 2 := by
    intro j hj
    rw [OqpskFrac.build_transmission_frame, List.getD_append _ _ _ _ (by simpa using hj),
      getD_map_range _ hj]
  refine ⟨fun hi => ⟨h1 i hi, h2 i hi⟩, fun hi => ⟨?_, ?_, ?_, ?_⟩⟩
  · rw [oqpsk_i_bits, getD_map_range _ (show i < 150 by omega)]
    exact h1 (2 * i) (by omega)
  · rw [oqpsk_q_bits, getD_map_range _ (show i < 150 by omega)]
    exact h1 (2 * i + 1) (by omega)
  · rw [oqpsk_i_bits, getD_map_range _ (show i < 150 by omega), h2 (2 * i) (by omega)]
    omega
  · rw [oqpsk_q_bits, getD_map_range _ (show i < 150 by omega), h2 (2 * i + 1) (by omega)]
    omega

/-- Witness for C6: position 3 of the preamble, on an all-ones frame. -/
theorem C6_witness :
    ((OqpskHalfSine.build_transmission_frame (List.replicate 252 1)).getD 3 0 = 0 ∧
      (OqpskFrac.build_transmission_frame (List.replicate 252 1)).getD 3 0 = 3 % 2) ∧
      ((oqpsk_i_bits (OqpskHalfSine.build_transmission_frame (List.replicate 252 1))).getD 3 0 = 0 ∧
        (oqpsk_q_bits (OqpskHalfSine.build_transmission_frame (List.replicate 252 1))).getD 3 0 = 0 ∧
        (oqpsk_i_bits (OqpskFrac.build_transmission_frame (List.replicate 252 1))).getD 3 0 = 0 ∧
        (oqpsk_q_bits (OqpskFrac.build_transmission_frame (List.replicate 252 1))).getD 3 0 = 1) :=
  ⟨(C6_amended_preamble _ 3).1 (by decide), (C6_amended_preamble _ 3).2 (by decide)⟩

/-- **C7.** For every input frame, the `part_003` revision of
`oqpsk_modulate_frame` returns exactly `38400 * sps` as its sample count
(614400 when `sps = 16`), the output buffer keeps its allocated length,
and every buffer position below that count is written before it is read:
the samples below `38400 * sps` are independent of the buffer's prior
contents, because the zero-fill loop initializes each of them before the
accumulation and post-processing loops run. -/
theorem C7_modulate_frame_sample_count (frame_bits : List ℕ) (sps : ℕ) (pulse : ℕ → ℚ)
    (normF rotC rotS : ℚ) (buf0 buf0' : List (ℚ × ℚ))
    (h : 38400 * sps ≤ buf0.length) (h' : 38400 * sps ≤ buf0'.length) :
    (OqpskHalfSine.oqpsk_modulate_frame frame_bits sps pulse normF rotC rotS buf0).2
        = 38400 * sps ∧
      (OqpskHalfSine.oqpsk_modulate_frame frame_bits sps pulse normF rotC rotS buf0).1.length
        = buf0.length ∧
      ∀ i, i < 38400 * sps →
        (OqpskHalfSine.oqpsk_modulate_frame frame_bits sps pulse normF rotC rotS buf0).1.getD
            i (0, 0)
          = (OqpskHalfSine.oqpsk_modulate_frame frame_bits sps pulse normF rotC rotS
              buf0').1.getD i (0, 0) := by
  refine ⟨rfl, ?_, ?_⟩
  · exact OqpskHalfSine.length_modulate_samples _ _ sps pulse normF rotC rotS buf0
  · exact OqpskHalfSine.modulate_samples_prefix _ _ sps pulse normF rotC rotS buf0 buf0' h h'

/-- Witness for C7: `sps = 16` over two 614400-sample buffers with
different prior contents; the count is `38400 * 16 = 614400`. -/
theorem C7_witness :
    38400 * 16 ≤ (List.replicate 614400 ((0 : ℚ), (0 : ℚ))).length ∧
      38400 * 16 ≤ (List.replicate 614400 ((1 : ℚ), (1 : ℚ))).length ∧
      38400 * 16 = 614400 ∧
      ((OqpskHalfSine.oqpsk_modulate_frame [] 16 (fun _ => 0) 1 1 0
            (List.replicate 614400 ((0 : ℚ), (0 : ℚ)))).2 = 38400 * 16 ∧
        (OqpskHalfSine.oqpsk_modulate_frame [] 16 (fun _ => 0) 1 1 0
            (List.replicate 614400 ((0 : ℚ), (0 : ℚ)))).1.length
          = (List.replicate 614400 ((0 : ℚ), (0 : ℚ))).length ∧
        ∀ i, i < 38400 * 16 →
          (OqpskHalfSine.oqpsk_modulate_frame [] 16 (fun _ => 0) 1 1 0
              (List.replicate 614400 ((0 : ℚ), (0 : ℚ)))).1.getD i (0, 0)
            = (OqpskHalfSine.oqpsk_modulate_frame [] 16 (fun _ => 0) 1 1 0
                (List.replicate 614400 ((1 : ℚ), (1 : ℚ)))).1.getD i (0, 0)) :=
  ⟨by rw [List.length_replicate], by rw [List.length_replicate], by norm_num,
    C7_modulate_frame_sample_count [] 16 (fun _ => 0) 1 1 0
      (List.replicate 614400 ((0 : ℚ), (0 : ℚ))) (List.replicate 614400 ((1 : ℚ), (1 : ℚ)))
      (by rw [List.length_replicate]) (by rw [List.length_replicate])⟩

/-- **C8 (counterexample).** The claim that in the unsaturated range
`altitude_to_code` returns `round((altitude + 400) / 16)` clamped to
`[0, 1022]` is false at altitude −393 m: `(−393 + 400) / 16 = 7/16`
rounds to 0, but the code — which adds the extra bias `0.0625` before
rounding — returns 1. -/
theorem C8_counterexample_altitude_rounding :
    T018.altitude_to_code (-393) = 1 ∧
      T018.altitude_to_code (-393)
        ≠ Int.toNat (min (max (round (((-393 : ℚ) + 400) / 16)) 0) 1022) := by
  have h : T018.altitude_to_code (-393) = 1 := by
    unfold T018.altitude_to_code
    rw [if_neg (by norm_num), if_neg (by norm_num),
      show ((-393 : ℚ) + 400) / 16 + 0.0625 + 0.5 = 1 by norm_num, Int.floor_one]
    decide
  refine ⟨h, ?_⟩
  rw [h]
  have hr : round (((-393 : ℚ) + 400) / 16) = 0 := by
    rw [round_eq]
    norm_num
  rw [hr]
  decide

/-- **C8 (amended).** `altitude_to_code` returns 0 for altitudes at or
below −400 m and 1022 for altitudes above 15952 m; in between it returns
`⌊(altitude + 400)/16 + 9/16⌋` (the C computes
`(altitude + 400)/16 + 0.0625 + 0.5` and truncates), a value that never
exceeds 1022; the reserved code 1023 is never returned. -/
theorem C8_amended_altitude_code (alt : ℚ) :
    (alt ≤ -400 → T018.altitude_to_code alt = 0) ∧
      (15952 < alt → T018.altitude_to_code alt = 1022) ∧
      (-400 < alt → alt ≤ 15952 →
        T018.altitude_to_code alt = Int.toNat ⌊(alt + 400) / 16 + 9 / 16⌋ ∧
          T018.altitude_to_code alt ≤ 1022) ∧
      T018.altitude_to_code alt ≠ 1023 := by
  have hA : alt ≤ -400 → T018.altitude_to_code alt = 0 := by
    intro h
    unfold T018.altitude_to_code
    rw [if_pos h]
  have hB : 15952 < alt → T018.altitude_to_code alt = 1022 := by
    intro h
    unfold T018.altitude_to_code
    rw [if_neg (by linarith), if_pos h]
  have hC : -400 < alt → alt ≤ 15952 →
      T018.altitude_to_code alt = Int.toNat ⌊(alt + 400) / 16 + 9 / 16⌋ ∧
        T018.altitude_to_code alt ≤ 1022 := by
    intro h1 h2
    unfold T018.altitude_to_code
    rw [if_neg (by linarith), if_neg (not_lt.mpr h2)]
    have harg : (alt + 400) / 16 + 0.0625 + 0.5 = (alt + 400) / 16 + 9 / 16 := by
      rw [show (0.0625 : ℚ) = 1 / 16 from by norm_num]
      ring
    have hx : (alt + 400) / 16 + 9 / 16 = (alt + 409) / 16 := by ring
    have hlt : (alt + 409) / 16 < ((1023 : ℤ) : ℚ) := by
      rw [div_lt_iff₀ (by norm_num : (0 : ℚ) < 16)]
      push_cast
      linarith
    have hfl : ⌊(alt + 409) / 16⌋ ≤ 1022 := by
      have := Int.floor_lt.mpr hlt
      omega
    have hnn : 0 ≤ ⌊(alt + 409) / 16⌋ := by
      rw [show ((0 : ℤ) = ⌊(0 : ℚ)⌋) from by norm_num]
      exact Int.floor_le_floor (div_nonneg (by linarith) (by norm_num))
    have htn : Int.toNat ⌊(alt + 409) / 16⌋ < 2 ^ 10 := by omega
    rw [harg, hx, show (0x3FF : ℕ) = 2 ^ 10 - 1 from rfl,
      Nat.and_pow_two_sub_one_of_lt_two_pow htn]
    exact ⟨rfl, by omega⟩
  refine ⟨hA, hB, hC, ?_⟩
  rcases le_or_lt alt (-400) with h | h
  · rw [hA h]
    norm_num
  · rcases le_or_lt alt 15952 with h2 | h2
    · have := (hC h h2).2
      omega
    · rw [hB h2]
      norm_num

/-- Witness for C8: the three branches at −401 m, 16000 m and 0 m
(the last giving code `⌊25 + 9/16⌋ = 25`). -/
theorem C8_witness :
    ((-401 : ℚ) ≤ -400 ∧ T018.altitude_to_code (-401) = 0) ∧
      ((15952 : ℚ) < 16000 ∧ T018.altitude_to_code 16000 = 1022) ∧
      ((-400 : ℚ) < 0 ∧ (0 : ℚ) ≤ 15952 ∧
        T018.altitude_to_code 0 = Int.toNat ⌊((0 : ℚ) + 400) / 16 + 9 / 16⌋ ∧
        T018.altitude_to_code 0 ≤ 1022) ∧
      T018.altitude_to_code 0 ≠ 1023 :=
  ⟨⟨by norm_num, (C8_amended_altitude_code (-401)).1 (by norm_num)⟩,
    ⟨by norm_num, (C8_amended_altitude_code 16000).2.1 (by norm_num)⟩,
    ⟨by norm_num, by norm_num, ((C8_amended_altitude_code 0).2.2.1 (by norm_num) (by norm_num)).1,
      ((C8_amended_altitude_code 0).2.2.1 (by norm_num) (by norm_num)).2⟩,
    (C8_amended_altitude_code 0).2.2.2⟩

/-- Slicing a list of the shape `[x] ++ l1 ++ l2 ++ l3` with `l1` of
length 7 and `l2` of length 15: position 0, positions 1..7, and
positions 8..22. -/
theorem append3_slices {α : Type} (x : α) (l1 l2 l3 : List α) (d : α)
    (h1 : l1.length = 7) (h2 : l2.length = 15) :
    ([x] ++ l1 ++ l2 ++ l3).getD 0 d = x ∧
      (([x] ++ l1 ++ l2 ++ l3).drop 1).take 7 = l1 ∧
      (([x] ++ l1 ++ l2 ++ l3).drop 8).take 15 = l2 := by
  have e : [x] ++ l1 ++ l2 ++ l3 = [x] ++ (l1 ++ (l2 ++ l3)) := by
    simp [List.append_assoc]
  refine ⟨?_, ?_, ?_⟩
  · rw [e, List.getD_append _ _ _ _ (by simp)]
    rfl
  · rw [e, List.drop_left' (show ([x] : List α).length = 1 from rfl), List.take_left' h1]
  · have e2 : [x] ++ l1 ++ l2 ++ l3 = ([x] ++ l1) ++ (l2 ++ l3) := by
      simp [List.append_assoc]
    rw [e2, List.drop_left' (show (([x] : List α) ++ l1).length = 8 from by simp [h1]),
      List.take_left' h2]

namespace T018

/-- Structural extraction of the latitude pieces of
`t018_encode_position` for a valid position: the sign bit, the 7-bit
degree field, and the 15-bit fractional field, each expressed through the
exact values the C computes. -/
theorem encode_position_slices (lat lon : ℚ) :
    (t018_encode_position lat lon 1).getD 0 0 = (if lat < 0 then 1 else 0) ∧
      ((t018_encode_position lat lon 1).drop 1).take 7
        = write_bits 7 (Int.toNat ⌊if lat < 0 then -lat else lat⌋) ∧
      ((t018_encode_position lat lon 1).drop 8).take 15
        = write_bits 15 (Int.toNat ⌊((if lat < 0 then -lat else lat)
            - (Int.toNat ⌊if lat < 0 then -lat else lat⌋ : ℚ)) * 32768 + 0.5⌋) := by
  unfold t018_encode_position
  simp only [ne_eq, one_ne_zero, not_false_eq_true, ite_true]
  exact append3_slices _ _ _ _ _ (length_write_bits 7 _) (length_write_bits 15 _)

end T018

/-- **C9 (counterexample).** The claim that the 15-bit fractional
latitude field is `round(frac(|lat|) × 2^15)` clamped to `[0, 2^15 − 1]`
is false at latitude `131071/131072` (≈ 0.9999924, exactly representable
in `float`, with every C `float` operation exact): the claimed clamped
value is 32767 (all ones), but the code computes
`⌊0.9999924 × 32768 + 0.5⌋ = 32768`, whose low 15 bits are all zeros. -/
theorem C9_counterexample_latitude_fraction :
    ((T018.t018_encode_position (131071 / 131072) 0 1).drop 8).take 15
      ≠ T018.write_bits 15
          (min (Int.toNat (round ((131071 / 131072 : ℚ) * 32768))) 32767) := by
  have hs := (T018.encode_position_slices (131071 / 131072) 0).2.2
  rw [if_neg (by norm_num : ¬((131071 / 131072 : ℚ) < 0))] at hs
  have hfl0 : ⌊(131071 / 131072 : ℚ)⌋ = 0 := by
    rw [Int.floor_eq_iff]
    norm_num
  rw [hfl0] at hs
  have hfl1 : ⌊((131071 / 131072 : ℚ) - ((Int.toNat 0 : ℕ) : ℚ)) * 32768 + 0.5⌋ = 32768 := by
    rw [Int.floor_eq_iff]
    norm_num
  rw [hfl1] at hs
  rw [hs]
  have hround : round ((131071 / 131072 : ℚ) * 32768) = 32768 := by
    rw [round_eq, Int.floor_eq_iff]
    norm_num
  rw [hround, show min (Int.toNat 32768) 32767 = 32767 from by norm_num]
  decide

/-- **C9 (amended).** For every valid position with latitude in
`[-90, 90]`, the 23-bit latitude field of `t018_encode_position` has
bit 0 equal to the sign (0 for north, 1 for south), bits 1..7 equal to
`⌊|lat|⌋` (a value at most 90, hence representable in 7 bits), and bits
8..22 equal to the low 15 bits of `⌊frac(|lat|) × 2^15 + 1/2⌋` — the
rounded fractional code is **not clamped**: it is at most `2^15 = 32768`,
and in the single overflow case (fractions ≥ `65535/65536`) the written
15-bit field wraps to 0 instead of saturating at 32767. -/
theorem C9_amended_latitude_field (lat lon : ℚ) (h1 : -90 ≤ lat) (h2 : lat ≤ 90) :
    (T018.t018_encode_position lat lon 1).getD 0 0 = (if lat < 0 then 1 else 0) ∧
      ((T018.t018_encode_position lat lon 1).drop 1).take 7
        = T018.write_bits 7 (Int.toNat ⌊|lat|⌋) ∧
      Int.toNat ⌊|lat|⌋ ≤ 90 ∧
      ((T018.t018_encode_position lat lon 1).drop 8).take 15
        = T018.write_bits 15
            (Int.toNat ⌊(|lat| - (Int.toNat ⌊|lat|⌋ : ℚ)) * 32768 + 0.5⌋ % 32768) ∧
      Int.toNat ⌊(|lat| - (Int.toNat ⌊|lat|⌋ : ℚ)) * 32768 + 0.5⌋ ≤ 32768 := by
  obtain ⟨hs, hd, hf⟩ := T018.encode_position_slices lat lon
  have habs : (if lat < 0 then -lat else lat) = |lat| := by
    rcases lt_or_le lat 0 with h | h
    · rw [if_pos h, abs_of_neg h]
    · rw [if_neg (not_lt.mpr h), abs_of_nonneg h]
  rw [habs] at hd hf
  have hfl0 : 0 ≤ ⌊|lat|⌋ := Int.floor_nonneg.mpr (abs_nonneg lat)
  have hfl90 : ⌊|lat|⌋ ≤ 90 := by
    have h90 : ⌊|lat|⌋ < 91 := by
      rw [Int.floor_lt]
      rcases abs_cases lat with ⟨he, -⟩ | ⟨he, -⟩ <;> rw [he] <;> push_cast <;> linarith
    omega
  have hcast : ((Int.toNat ⌊|lat|⌋ : ℕ) : ℚ) = ((⌊|lat|⌋ : ℤ) : ℚ) := by
    exact_mod_cast congrArg (fun z : ℤ => (z : ℚ)) (Int.toNat_of_nonneg hfl0)
  have hfrac0 : 0 ≤ |lat| - ((⌊|lat|⌋ : ℤ) : ℚ) := by
    have := Int.floor_le |lat|
    linarith
  have hfrac1 : |lat| - ((⌊|lat|⌋ : ℤ) : ℚ) < 1 := by
    have := Int.lt_floor_add_one |lat|
    linarith
  have hcode_nn : 0 ≤ ⌊(|lat| - (Int.toNat ⌊|lat|⌋ : ℚ)) * 32768 + 0.5⌋ := by
    rw [hcast]
    refine Int.le_floor.mpr ?_
    push_cast
    nlinarith
  have hcode_le : ⌊(|lat| - (Int.toNat ⌊|lat|⌋ : ℚ)) * 32768 + 0.5⌋ ≤ 32768 := by
    rw [hcast]
    have hlt : (|lat| - ((⌊|lat|⌋ : ℤ) : ℚ)) * 32768 + 0.5 < ((32769 : ℤ) : ℚ) := by
      push_cast
      nlinarith
    have := Int.floor_lt.mpr hlt
    omega
  refine ⟨hs, hd, by omega, ?_, by omega⟩
  rw [hf, show (32768 : ℕ) = 2 ^ 15 from by norm_num, T018.write_bits_mod]

/-- Witness for C9: the default configuration's position (43.2° N,
5.4° E). -/
theorem C9_witness :
    (-90 : ℚ) ≤ 43.2 ∧ (43.2 : ℚ) ≤ 90 ∧
      ((T018.t018_encode_position 43.2 5.4 1).getD 0 0
          = (if (43.2 : ℚ) < 0 then 1 else 0) ∧
        ((T018.t018_encode_position 43.2 5.4 1).drop 1).take 7
          = T018.write_bits 7 (Int.toNat ⌊|(43.2 : ℚ)|⌋) ∧
        Int.toNat ⌊|(43.2 : ℚ)|⌋ ≤ 90 ∧
        ((T018.t018_encode_position 43.2 5.4 1).drop 8).take 15
          = T018.write_bits 15
              (Int.toNat ⌊(|(43.2 : ℚ)| - (Int.toNat ⌊|(43.2 : ℚ)|⌋ : ℚ)) * 32768 + 0.5⌋
                % 32768) ∧
        Int.toNat ⌊(|(43.2 : ℚ)| - (Int.toNat ⌊|(43.2 : ℚ)|⌋ : ℚ)) * 32768 + 0.5⌋ ≤ 32768) :=
  ⟨by norm_num, by norm_num, C9_amended_latitude_field 43.2 5.4 (by norm_num) (by norm_num)⟩
